import Mathlib

/-!
Shallow embedding of `cleanup.py` (AWS resource discovery and teardown).

The AWS provider is modelled as an immutable `AWSState` record of the data the
script's read calls can observe; every boto3 call the script issues is recorded
as a `Call` event, and every `print` as a `log` event, so each embedded function
returns its result together with the ordered list of observable events it
produces.  Machine details that the script never inspects (regions, credential
setup, the exact `repr` punctuation Python uses when printing list values, and
the `strftime` rendering of launch times, which we model as the provider already
supplying the formatted text) are abstracted.  Python truthiness on optional
strings (`if x:`) is modelled by `truthyOpt`; the `is None` test is `Option.isNone`.
-/

/-- Provider calls the script can issue (boto3 calls, including waiter waits). -/
inductive Call where
  | describeInstancesVpc (vpcId : String)
  | describeInstances (instanceIds publicIps : List String)
  | describeInternetGateways (vpcId : String)
  | describeSubnets (vpcId : String)
  | describeVpcEndpoints (vpcId : String)
  | describeAsgInstances (instanceId : String)
  | describeIamAssociations
  | listClusters
  | describeCluster (name : String)
  | listNodegroups (cluster : String)
  | deleteAutoScalingGroup (name : String)
  | disassociateIamProfile (associationId : String)
  | terminateInstances (instanceId : String)
  | waitInstanceTerminated (instanceId : String)
  | deleteSubnet (subnetId : String)
  | detachInternetGateway (igwId vpcId : String)
  | deleteInternetGateway (igwId : String)
  | deleteVpcEndpoint (endpointId : String)
  | deleteNodegroup (cluster nodegroup : String)
  | waitNodegroupDeleted (cluster nodegroup : String)
  | deleteCluster (name : String)
  | deleteVpc (vpcId : String)
deriving Repr, DecidableEq

/-- An observable event: a provider call or a printed line. -/
inductive Event where
  | call (c : Call)
  | log (s : String)
deriving Repr, DecidableEq

/-- Whether a provider call mutates cloud state (deletes / detaches / terminates). -/
def mutatingCall : Call → Bool
  | .deleteAutoScalingGroup _ => true
  | .disassociateIamProfile _ => true
  | .terminateInstances _ => true
  | .deleteSubnet _ => true
  | .detachInternetGateway _ _ => true
  | .deleteInternetGateway _ => true
  | .deleteVpcEndpoint _ => true
  | .deleteNodegroup _ _ => true
  | .deleteCluster _ => true
  | .deleteVpc _ => true
  | _ => false

/-- Whether an event is a mutating provider call (logs and reads are not). -/
def mutatingE : Event → Bool
  | .call c => mutatingCall c
  | .log _ => false

/-- Whether an event is a provider call at all (as opposed to a printed line). -/
def isProviderCall : Event → Bool
  | .call _ => true
  | .log _ => false

/-- One EC2 instance as the provider reports it. `launchTime` is the formatted
text the script derives via `strftime`. -/
structure Ec2Instance where
  instanceId : String
  publicIp : Option String
  state : String
  launchTime : String
  vpcId : Option String
  networkInterfaceIds : List String
  securityGroupIds : List String
  iamInstanceProfileArn : Option String
  blockDeviceMappings : List (String × String)
deriving Repr, DecidableEq

/-- An internet gateway and the VPCs it is attached to. -/
structure InternetGateway where
  igwId : String
  attachedVpcIds : List String
deriving Repr, DecidableEq

/-- A subnet and its owning VPC. -/
structure Subnet where
  subnetId : String
  vpcId : String
deriving Repr, DecidableEq

/-- A VPC endpoint and its owning VPC. -/
structure VpcEndpoint where
  endpointId : String
  vpcId : String
deriving Repr, DecidableEq

/-- One entry of `describe_auto_scaling_instances`: an instance managed by an
auto-scaling group (the group name field may be absent, hence `Option`). -/
structure AsgInstance where
  instanceId : String
  asgName : Option String
deriving Repr, DecidableEq

/-- One IAM instance-profile association. -/
structure IamAssociation where
  associationId : String
  arn : String
deriving Repr, DecidableEq

/-- One EKS cluster with the VPC id of its `resourcesVpcConfig`. -/
structure EksCluster where
  name : String
  vpcId : String
deriving Repr, DecidableEq

/-- The observable cloud state backing the provider's read calls. -/
structure AWSState where
  instances : List Ec2Instance
  internetGateways : List InternetGateway
  subnets : List Subnet
  vpcEndpoints : List VpcEndpoint
  asgInstances : List AsgInstance
  iamAssociations : List IamAssociation
  eksClusters : List EksCluster
  nodegroups : List (String × List String)
deriving Repr, DecidableEq

/-- Python truthiness of an optional string: `None` and `""` are falsy. -/
def truthyOpt : Option String → Bool
  | none => false
  | some s => !(s == "")

/-- Semantics of `describe_instances` with the script's filter expression:
filters conjoin, each filter's value list disjoins, and an empty filter list
matches every instance in the region. -/
def matchesFilters (instanceIds publicIps : List String) (i : Ec2Instance) : Bool :=
  (instanceIds.isEmpty || instanceIds.contains i.instanceId) &&
  (publicIps.isEmpty ||
    (match i.publicIp with
     | some p => publicIps.contains p
     | none => false))

/-- `describe_instances(Filters=[instance-id, ip-address])` as a pure query. -/
def describeInstancesByFilters (st : AWSState) (instanceIds publicIps : List String) :
    List Ec2Instance :=
  st.instances.filter (matchesFilters instanceIds publicIps)

/-- `describe_instances(Filters=[vpc-id])` as a pure query. -/
def describeInstancesOfVpc (st : AWSState) (v : String) : List Ec2Instance :=
  st.instances.filter (fun i =>
    match i.vpcId with
    | some w => w == v
    | none => false)

/-- Gateway ids attached to a VPC, as `describe_internet_gateways` returns them. -/
def igwIdsOfVpc (st : AWSState) (v : String) : List String :=
  (st.internetGateways.filter (fun g => g.attachedVpcIds.contains v)).map (·.igwId)

/-- Subnet ids of a VPC, as `describe_subnets` returns them. -/
def subnetIdsOfVpc (st : AWSState) (v : String) : List String :=
  (st.subnets.filter (fun s => s.vpcId == v)).map (·.subnetId)

/-- Endpoint ids of a VPC, as `describe_vpc_endpoints` returns them. -/
def endpointIdsOfVpc (st : AWSState) (v : String) : List String :=
  (st.vpcEndpoints.filter (fun e => e.vpcId == v)).map (·.endpointId)

/-- Node-group names of a cluster, as `list_nodegroups` returns them. -/
def nodegroupsOf (st : AWSState) (c : String) : List String :=
  match st.nodegroups.find? (fun p => p.1 == c) with
  | some p => p.2
  | none => []

/-- Embeds `get_autoscaling_group`: one `describe_auto_scaling_instances` call,
returning the first match's group name or the `"N/A"` sentinel. -/
def get_autoscaling_group (st : AWSState) (instance_id : String) : String × List Event :=
  let asgMatches := st.asgInstances.filter (fun a => a.instanceId == instance_id)
  (match asgMatches with
   | [] => "N/A"
   | a :: _ => a.asgName.getD "N/A",
   [Event.call (Call.describeAsgInstances instance_id)])

/-- Scan of the cluster list inside `get_eks_cluster`: describe each cluster in
order until one whose `resourcesVpcConfig` VPC id equals the query (comparison
against a Python `None` query is always false), stopping at the first match. -/
def scanClusters (v : Option String) : List EksCluster → Option String × List Event
  | [] => (none, [])
  | c :: rest =>
      if v = some c.vpcId then
        (some c.name, [Event.call (Call.describeCluster c.name)])
      else
        let p := scanClusters v rest
        (p.1, Event.call (Call.describeCluster c.name) :: p.2)

/-- Embeds `get_eks_cluster`: `list_clusters`, then describe clusters in order
until the first whose VPC matches. -/
def get_eks_cluster (st : AWSState) (vpc_id : Option String) : Option String × List Event :=
  let p := scanClusters vpc_id st.eksClusters
  (p.1, Event.call Call.listClusters :: p.2)

/-- One discovered instance record, with `"N/A"` sentinels where the script
stores them. -/
structure InstanceData where
  instanceId : String
  publicIp : String
  state : String
  launchTime : String
  vpcId : Option String
  internetGatewayIds : List String
  subnetIds : List String
  networkInterfaceId : String
  securityGroupIds : List String
  iamInstanceProfile : String
  blockDeviceMappings : List (String × String)
  autoScalingGroup : String
deriving Repr, DecidableEq

/-- The discovery result dictionary. `internetGatewayIds`/`subnetIds` are `some`
exactly when the network-only branch added those keys. -/
structure Resources where
  eksCluster : Option String
  vpcId : Option String
  instances : List InstanceData
  internetGatewayIds : Option (List String)
  subnetIds : Option (List String)
deriving Repr, DecidableEq

/-- Per-instance VPC lookups inside the reservation loop: gateway ids, subnet
ids, and the describe events, or empty when the instance's VPC id is falsy. -/
def vpcLookup (st : AWSState) : Option String → List String × List String × List Event
  | some v =>
    if v = "" then ([], [], [])
    else (igwIdsOfVpc st v, subnetIdsOfVpc st v,
          [Event.call (Call.describeInternetGateways v),
           Event.call (Call.describeSubnets v)])
  | none => ([], [], [])

/-- The instance record assembled for one retained instance. -/
def mkInstanceData (st : AWSState) (i : Ec2Instance) (asg : String) : InstanceData :=
  { instanceId := i.instanceId
    publicIp := i.publicIp.getD "N/A"
    state := i.state
    launchTime := i.launchTime
    vpcId := i.vpcId
    internetGatewayIds := (vpcLookup st i.vpcId).1
    subnetIds := (vpcLookup st i.vpcId).2.1
    networkInterfaceId :=
      match i.networkInterfaceIds with
      | [] => "N/A"
      | n :: _ => n
    securityGroupIds := i.securityGroupIds
    iamInstanceProfile := i.iamInstanceProfileArn.getD "N/A"
    blockDeviceMappings := i.blockDeviceMappings
    autoScalingGroup := asg }

/-- The reservation loop of `get_instances_details`: skips stopped/terminated
instances, looks up the ASG, the per-instance VPC gateways/subnets, and the EKS
cluster when none is recorded yet; threads the EKS accumulator and collects the
records and events in instance order. -/
def processInstances (st : AWSState) (eks0 : Option String) :
    List Ec2Instance → Option String × List InstanceData × List Event
  | [] => (eks0, [], [])
  | i :: rest =>
    if i.state = "stopped" ∨ i.state = "terminated" then
      processInstances st eks0 rest
    else
      let asgP := get_autoscaling_group st i.instanceId
      let d := mkInstanceData st i asgP.1
      let eksP :=
        if truthyOpt eks0 then (eks0, ([] : List Event))
        else get_eks_cluster st i.vpcId
      let restP := processInstances st eksP.1 rest
      (restP.1, d :: restP.2.1,
       asgP.2 ++ (vpcLookup st i.vpcId).2.2 ++ eksP.2 ++ restP.2.2)

/-- The tail of `get_instances_details` from the filter construction onward:
builds the instance-id/ip filters, raises `ValueError` when no filter and no
VPC id is present, otherwise queries and runs the reservation loop. -/
def gidTail (st : AWSState) (instance_id public_ip : List String) (vpc_id : Option String)
    (r0 : Resources) : Except String Resources × List Event :=
  if instance_id.isEmpty ∧ public_ip.isEmpty ∧ ¬ truthyOpt vpc_id then
    (Except.error "At least one of --public-ip, --instance-id, or --vpc-id must be provided.",
     [])
  else
    let resp := describeInstancesByFilters st instance_id public_ip
    let p := processInstances st r0.eksCluster resp
    (Except.ok { r0 with eksCluster := p.1, instances := p.2.1 },
     Event.call (Call.describeInstances instance_id public_ip) :: p.2.2)

/-- Embeds `get_instances_details`.  With a truthy VPC id it first queries the
VPC's instances; when none exist it returns the network-only resource shape
(gateway ids, subnet ids, EKS lookup).  Otherwise it proceeds with the
explicit instance-id/ip filters only. -/
def get_instances_details (st : AWSState) (instance_id public_ip : List String)
    (vpc_id : Option String) : Except String Resources × List Event :=
  let r0 : Resources :=
    { eksCluster := none, vpcId := vpc_id, instances := [],
      internetGatewayIds := none, subnetIds := none }
  match vpc_id with
  | some v =>
    if v = "" then gidTail st instance_id public_ip vpc_id r0
    else
      let vpcInsts := describeInstancesOfVpc st v
      if vpcInsts.isEmpty then
        let eksP := get_eks_cluster st (some v)
        (Except.ok { r0 with
            eksCluster := eksP.1,
            internetGatewayIds := some (igwIdsOfVpc st v),
            subnetIds := some (subnetIdsOfVpc st v) },
         [Event.call (Call.describeInstancesVpc v),
          Event.log ("No instances found for VPC " ++ v),
          Event.call (Call.describeInternetGateways v),
          Event.call (Call.describeSubnets v)] ++ eksP.2)
      else
        let p := gidTail st instance_id public_ip vpc_id r0
        (p.1, Event.call (Call.describeInstancesVpc v) :: p.2)
  | none => gidTail st instance_id public_ip vpc_id r0

/-- Display helper for `print`: falsy values (Python `None`, `""`) print as `N/A`. -/
def dispOpt : Option String → String
  | some s => if s = "" then "N/A" else s
  | none => "N/A"

/-- Display helper: `', '.join(l) if l else 'N/A'`. -/
def joinOrNA (l : List String) : String :=
  if l.isEmpty then "N/A" else String.intercalate ", " l

/-- Display helper for a non-empty string field (`value if value else 'N/A'`). -/
def dispStr (s : String) : String :=
  if s = "" then "N/A" else s

/-- Display helper for a list-valued field (Python prints the list itself when
truthy; the repr quote marks are elided here). -/
def dispList (l : List String) : String :=
  if l.isEmpty then "N/A" else "[" ++ String.intercalate ", " l ++ "]"

/-- Display helper for the block-device-mapping list. -/
def dispPairs (l : List (String × String)) : String :=
  if l.isEmpty then "N/A"
  else "[" ++ String.intercalate ", " (l.map (fun p => "(" ++ p.1 ++ ", " ++ p.2 ++ ")")) ++ "]"

/-- Printed lines for one instance record (one line per dictionary field, then
a blank separator line). -/
def instanceLines (d : InstanceData) : List Event :=
  [Event.log ("InstanceId: " ++ dispStr d.instanceId),
   Event.log ("PublicIpAddress: " ++ dispStr d.publicIp),
   Event.log ("State: " ++ dispStr d.state),
   Event.log ("LaunchTime: " ++ dispStr d.launchTime),
   Event.log ("VpcId: " ++ dispOpt d.vpcId),
   Event.log ("InternetGatewayIds: " ++ dispList d.internetGatewayIds),
   Event.log ("SubnetIds: " ++ dispList d.subnetIds),
   Event.log ("NetworkInterfaceId: " ++ dispStr d.networkInterfaceId),
   Event.log ("SecurityGroupIds: " ++ dispList d.securityGroupIds),
   Event.log ("IamInstanceProfile: " ++ dispStr d.iamInstanceProfile),
   Event.log ("BlockDeviceMappings: " ++ dispPairs d.blockDeviceMappings),
   Event.log ("AutoScalingGroup: " ++ dispStr d.autoScalingGroup),
   Event.log ""]

/-- Embeds `print_resource_info`: the summary lines (gateway/subnet lines only
when the network-only keys are present) followed by the per-instance lines. -/
def print_resource_info (res : Resources) : List Event :=
  [Event.log ("EKS Cluster: " ++ dispOpt res.eksCluster),
   Event.log ("VPC ID: " ++ dispOpt res.vpcId)] ++
  (match res.internetGatewayIds with
   | some l => [Event.log ("Internet Gateway IDs: " ++ joinOrNA l)]
   | none => []) ++
  (match res.subnetIds with
   | some l => [Event.log ("Subnet IDs: " ++ joinOrNA l)]
   | none => []) ++
  [Event.log "\nInstances:"] ++
  (if res.instances.isEmpty then [Event.log "No instances found.\n"]
   else res.instances.flatMap instanceLines)

/-- Embeds `detach_iam_instance_profile`: short-circuits on the `"N/A"`
sentinel; otherwise lists all associations and disassociates each whose ARN
matches. -/
def detach_iam_instance_profile (st : AWSState) (instance_profile_arn : String) : List Event :=
  if instance_profile_arn = "N/A" then
    [Event.log "No IAM instance profile attached."]
  else
    let nm := (instance_profile_arn.splitOn "/").getLastD ""
    [Event.call Call.describeIamAssociations,
     Event.log ("Detaching IAM instance profile " ++ nm ++ "...")] ++
    (st.iamAssociations.filter (fun a => a.arn == instance_profile_arn)).map
      (fun a => Event.call (Call.disassociateIamProfile a.associationId))

/-- Embeds `terminate_instance`: short-circuits on the `"N/A"` sentinel;
otherwise terminates and waits for the terminated state. -/
def terminate_instance (instance_id : String) : List Event :=
  if instance_id = "N/A" then
    [Event.log "Invalid instance ID."]
  else
    [Event.call (Call.terminateInstances instance_id),
     Event.log ("Terminating instance " ++ instance_id ++ "..."),
     Event.call (Call.waitInstanceTerminated instance_id)]

/-- Embeds `terminate_asg`: short-circuits on the `"N/A"` sentinel; otherwise
force-deletes the auto-scaling group. -/
def terminate_asg (asg_name : String) : List Event :=
  if asg_name = "N/A" then
    [Event.log "No Auto Scaling Group attached."]
  else
    [Event.log ("Terminating Auto Scaling Group " ++ asg_name ++ "..."),
     Event.call (Call.deleteAutoScalingGroup asg_name)]

/-- Embeds `delete_subnet`: short-circuits on the `"N/A"` sentinel. -/
def delete_subnet (subnet_id : String) : List Event :=
  if subnet_id = "N/A" then
    [Event.log "Invalid subnet ID."]
  else
    [Event.log ("Deleting subnet " ++ subnet_id ++ "..."),
     Event.call (Call.deleteSubnet subnet_id)]

/-- Embeds `delete_internet_gateways`: short-circuits on the `"N/A"` sentinel;
otherwise describes the VPC's gateways and detaches then deletes each. -/
def delete_internet_gateways (st : AWSState) (vpc_id : String) : List Event :=
  if vpc_id = "N/A" then
    [Event.log "Invalid VPC ID."]
  else
    Event.call (Call.describeInternetGateways vpc_id) ::
    (igwIdsOfVpc st vpc_id).flatMap (fun g =>
      [Event.log ("Detaching and deleting Internet Gateway " ++ g ++ "..."),
       Event.call (Call.detachInternetGateway g vpc_id),
       Event.call (Call.deleteInternetGateway g)])

/-- Embeds `delete_all_subnets`: short-circuits on the `"N/A"` sentinel;
otherwise describes the VPC's subnets and deletes each via `delete_subnet`. -/
def delete_all_subnets (st : AWSState) (vpc_id : String) : List Event :=
  if vpc_id = "N/A" then
    [Event.log "Invalid VPC ID."]
  else
    Event.call (Call.describeSubnets vpc_id) ::
    (subnetIdsOfVpc st vpc_id).flatMap (fun s => delete_subnet s)

/-- Embeds `delete_vpc_endpoints`: short-circuits on the `"N/A"` sentinel;
otherwise describes the VPC's endpoints and deletes each. -/
def delete_vpc_endpoints (st : AWSState) (vpc_id : String) : List Event :=
  if vpc_id = "N/A" then
    [Event.log "Invalid VPC ID."]
  else
    Event.call (Call.describeVpcEndpoints vpc_id) ::
    (endpointIdsOfVpc st vpc_id).flatMap (fun e =>
      [Event.log ("Deleting VPC Endpoint " ++ e ++ "..."),
       Event.call (Call.deleteVpcEndpoint e)])

/-- Embeds `delete_vpc`: short-circuits on the `"N/A"` sentinel; otherwise
deletes endpoints, then internet gateways, then subnets, then the VPC itself. -/
def delete_vpc (st : AWSState) (vpc_id : String) : List Event :=
  if vpc_id = "N/A" then
    [Event.log "Invalid VPC ID."]
  else
    delete_vpc_endpoints st vpc_id ++
    delete_internet_gateways st vpc_id ++
    delete_all_subnets st vpc_id ++
    [Event.log ("Deleting VPC " ++ vpc_id ++ "..."),
     Event.call (Call.deleteVpc vpc_id)]

/-- Embeds `delete_eks_cluster`: when the cluster name is truthy, lists node
groups, deletes each, waits for each to reach the deleted state, then deletes
the cluster. -/
def delete_eks_cluster (st : AWSState) (eks_cluster_name : Option String) : List Event :=
  match eks_cluster_name with
  | some c =>
    if c = "" then []
    else
      [Event.log ("Deleting node groups for EKS cluster " ++ c ++ "..."),
       Event.call (Call.listNodegroups c)] ++
      (nodegroupsOf st c).flatMap (fun ng =>
        [Event.call (Call.deleteNodegroup c ng),
         Event.log ("Deleted node group " ++ ng)]) ++
      (nodegroupsOf st c).map (fun ng => Event.call (Call.waitNodegroupDeleted c ng)) ++
      [Event.log ("Deleting EKS cluster " ++ c ++ "..."),
       Event.call (Call.deleteCluster c)]
  | none => []

/-- The per-instance loop of `main`: threads the `vpc_id` variable (replaced by
the record's VPC id only while it is Python `None`) and, per record in list
order, deletes the ASG, detaches the IAM profile, then terminates the instance.
Returns the final `vpc_id` value and the events. -/
def instanceLoop (st : AWSState) : Option String → List InstanceData →
    Option String × List Event
  | v, [] => (v, [])
  | v, d :: rest =>
    let v1 := if v.isNone then d.vpcId else v
    let ev := terminate_asg d.autoScalingGroup ++
              detach_iam_instance_profile st d.iamInstanceProfile ++
              terminate_instance d.instanceId
    let p := instanceLoop st v1 rest
    (p.1, ev ++ p.2)

/-- The teardown phase of `main`: the instance loop, then — when the resulting
`vpc_id` is truthy — the VPC teardown. -/
def teardownEvents (st : AWSState) (vpc0 : Option String) (res : Resources) : List Event :=
  let p := instanceLoop st vpc0 res.instances
  p.2 ++
  (match p.1 with
   | some v => if v = "" then [] else delete_vpc st v
   | none => [])

/-- CLI arguments relevant to the core (region and client setup are external). -/
structure Args where
  public_ip : List String
  instance_id : List String
  vpc_id : Option String
  no_dry_run : Bool
deriving Repr, DecidableEq

/-- Embeds `main`: discovery, plan printing, the dry-run gate, the optional
EKS-cluster removal with re-discovery, the per-instance teardown loop, and the
final VPC teardown.  A `ValueError` from discovery propagates as the error
result with the events produced so far. -/
def mainProgram (st : AWSState) (args : Args) : Except String Unit × List Event :=
  let pre := [Event.log "retrieving details..."]
  match get_instances_details st args.instance_id args.public_ip args.vpc_id with
  | (Except.error e, t1) => (Except.error e, pre ++ t1)
  | (Except.ok res, t1) =>
    let t2 := Event.log "These resources will be deleted:" :: print_resource_info res
    if !args.no_dry_run then
      (Except.ok (),
       pre ++ t1 ++ t2 ++
       [Event.log "Dry run completed. Use --no-dry-run to execute the deletion process."])
    else if truthyOpt res.eksCluster then
      let te := delete_eks_cluster st res.eksCluster
      let tu := [Event.log "Updating the resources after removing the EKS cluster"]
      match get_instances_details st args.instance_id args.public_ip args.vpc_id with
      | (Except.error e, t3) => (Except.error e, pre ++ t1 ++ t2 ++ te ++ tu ++ t3)
      | (Except.ok res2, t3) =>
        let t4 := Event.log "Resources left for deletion:" :: print_resource_info res2
        (Except.ok (),
         pre ++ t1 ++ t2 ++ te ++ tu ++ t3 ++ t4 ++ teardownEvents st args.vpc_id res2)
    else
      (Except.ok (), pre ++ t1 ++ t2 ++ teardownEvents st args.vpc_id res)

/-- A list of events containing no mutating provider call. -/
def NonMut (l : List Event) : Prop := ∀ e ∈ l, mutatingE e = false

lemma nonMut_nil : NonMut [] := by
  intro e he
  cases he

lemma nonMut_cons {e : Event} {l : List Event} (h1 : mutatingE e = false) (h2 : NonMut l) :
    NonMut (e :: l) := by
  intro x hx
  rcases List.mem_cons.mp hx with h | h
  · exact h ▸ h1
  · exact h2 x h

lemma nonMut_append {a b : List Event} (ha : NonMut a) (hb : NonMut b) : NonMut (a ++ b) := by
  intro x hx
  rcases List.mem_append.mp hx with h | h
  · exact ha x h
  · exact hb x h

lemma nonMut_log (s : String) : NonMut [Event.log s] := by
  intro x hx
  simp only [List.mem_singleton] at hx
  subst hx
  rfl

lemma nonMut_scanClusters (v : Option String) (cs : List EksCluster) :
    NonMut (scanClusters v cs).2 := by
  induction cs with
  | nil => exact nonMut_nil
  | cons c rest ih =>
    by_cases h : v = some c.vpcId
    · simp only [scanClusters, if_pos h]
      intro x hx
      simp only [List.mem_singleton] at hx
      subst hx
      rfl
    · simp only [scanClusters, if_neg h]
      exact nonMut_cons rfl ih

lemma nonMut_get_eks_cluster (st : AWSState) (v : Option String) :
    NonMut (get_eks_cluster st v).2 := by
  show NonMut (Event.call Call.listClusters :: (scanClusters v st.eksClusters).2)
  exact nonMut_cons rfl (nonMut_scanClusters v st.eksClusters)

lemma nonMut_vpcLookup (st : AWSState) (v : Option String) :
    NonMut (vpcLookup st v).2.2 := by
  cases v with
  | none => exact nonMut_nil
  | some s =>
    by_cases h : s = ""
    · simp only [vpcLookup, if_pos h]
      exact nonMut_nil
    · simp only [vpcLookup, if_neg h]
      intro x hx
      simp only [List.mem_cons, List.not_mem_nil, or_false] at hx
      rcases hx with h1 | h1 <;> exact h1 ▸ rfl

lemma nonMut_processInstances (st : AWSState) (l : List Ec2Instance) :
    ∀ eks0, NonMut (processInstances st eks0 l).2.2 := by
  induction l with
  | nil => intro eks0; exact nonMut_nil
  | cons i rest ih =>
    intro eks0
    by_cases h : i.state = "stopped" ∨ i.state = "terminated"
    · simp only [processInstances, if_pos h]
      exact ih eks0
    · simp only [processInstances, if_neg h]
      refine nonMut_append (nonMut_append (nonMut_append ?_ (nonMut_vpcLookup st i.vpcId))
        ?_) (ih _)
      · intro x hx
        simp only [get_autoscaling_group, List.mem_cons, List.not_mem_nil, or_false] at hx
        exact hx ▸ rfl
      · split
        · exact nonMut_nil
        · exact nonMut_get_eks_cluster st i.vpcId

lemma nonMut_gidTail (st : AWSState) (a b : List String) (v : Option String) (r0 : Resources) :
    NonMut (gidTail st a b v r0).2 := by
  unfold gidTail
  split
  · exact nonMut_nil
  · exact nonMut_cons rfl (nonMut_processInstances st _ _)

lemma nonMut_get_instances_details (st : AWSState) (a b : List String) (v : Option String) :
    NonMut (get_instances_details st a b v).2 := by
  unfold get_instances_details
  cases v with
  | none => exact nonMut_gidTail st a b none _
  | some s =>
    by_cases h : s = ""
    · simp only [if_pos h]
      exact nonMut_gidTail st a b (some s) _
    · simp only [if_neg h]
      by_cases he : (describeInstancesOfVpc st s).isEmpty
      · simp only [if_pos he]
        refine nonMut_append ?_ (nonMut_get_eks_cluster st (some s))
        intro x hx
        simp only [List.mem_cons, List.not_mem_nil, or_false] at hx
        rcases hx with h1 | h1 | h1 | h1 <;> exact h1 ▸ rfl
      · simp only [if_neg he]
        exact nonMut_cons rfl (nonMut_gidTail st a b (some s) _)

lemma nonMut_instanceLines (d : InstanceData) : NonMut (instanceLines d) := by
  intro x hx
  simp only [instanceLines, List.mem_cons, List.not_mem_nil, or_false] at hx
  rcases hx with h | h | h | h | h | h | h | h | h | h | h | h | h <;> exact h ▸ rfl

lemma nonMut_print_resource_info (res : Resources) : NonMut (print_resource_info res) := by
  unfold print_resource_info
  refine nonMut_append (nonMut_append (nonMut_append (nonMut_append ?_ ?_) ?_) ?_) ?_
  · intro x hx
    simp only [List.mem_cons, List.not_mem_nil, or_false] at hx
    rcases hx with h | h <;> exact h ▸ rfl
  · split
    · exact nonMut_log _
    · exact nonMut_nil
  · split
    · exact nonMut_log _
    · exact nonMut_nil
  · exact nonMut_log _
  · split
    · exact nonMut_log _
    · intro x hx
      rcases List.mem_flatMap.mp hx with ⟨d, _, hd⟩
      exact nonMut_instanceLines d x hd

lemma gidTail_ok (st : AWSState) (a b : List String) (v : Option String) (r0 : Resources)
    (res : Resources) (h : (gidTail st a b v r0).1 = Except.ok res) :
    res.instances = (processInstances st r0.eksCluster (describeInstancesByFilters st a b)).2.1 := by
  unfold gidTail at h
  split at h
  · cases h
  · rcases Except.ok.inj h with h1
    rw [← h1]

lemma gid_ok_instances (st : AWSState) (a b : List String) (v : Option String)
    (res : Resources) (h : (get_instances_details st a b v).1 = Except.ok res) :
    res.instances = [] ∨
      res.instances = (processInstances st none (describeInstancesByFilters st a b)).2.1 := by
  unfold get_instances_details at h
  cases v with
  | none => exact Or.inr (gidTail_ok st a b none _ res h)
  | some s =>
    dsimp only at h
    by_cases hs : s = ""
    · rw [if_pos hs] at h
      exact Or.inr (gidTail_ok st a b (some s) _ res h)
    · rw [if_neg hs] at h
      by_cases he : (describeInstancesOfVpc st s).isEmpty
      · rw [if_pos he] at h
        rcases Except.ok.inj h with h1
        rw [← h1]
        exact Or.inl rfl
      · rw [if_neg he] at h
        exact Or.inr (gidTail_ok st a b (some s) _ res h)

lemma processInstances_no_stopped (st : AWSState) (l : List Ec2Instance) :
    ∀ eks0 r, r ∈ (processInstances st eks0 l).2.1 →
      r.state ≠ "stopped" ∧ r.state ≠ "terminated" := by
  induction l with
  | nil =>
    intro eks0 r hr
    cases hr
  | cons i rest ih =>
    intro eks0 r hr
    by_cases h : i.state = "stopped" ∨ i.state = "terminated"
    · simp only [processInstances, if_pos h] at hr
      exact ih eks0 r hr
    · simp only [processInstances, if_neg h] at hr
      rcases List.mem_cons.mp hr with h1 | h1
      · subst h1
        push_neg at h
        simpa [mkInstanceData] using h
      · exact ih _ r h1

/-- C2: a discovery call with all three identifying inputs absent fails with the
invalid-query `ValueError` and issues zero provider calls (indeed zero events of
any kind) before failing. -/
theorem c2_invalid_query_fails_fast (st : AWSState) :
    get_instances_details st [] [] none =
      (Except.error "At least one of --public-ip, --instance-id, or --vpc-id must be provided.",
       []) := rfl

/-- C3: with the execute switch absent (dry run), the whole run issues zero
mutating provider calls, whatever the provider state holds. -/
theorem c3_dry_run_no_mutating_calls (st : AWSState) (args : Args)
    (h : args.no_dry_run = false) :
    ∀ e ∈ (mainProgram st args).2, mutatingE e = false := by
  have hg := nonMut_get_instances_details st args.instance_id args.public_ip args.vpc_id
  unfold mainProgram
  rcases hE : get_instances_details st args.instance_id args.public_ip args.vpc_id with ⟨r, t1⟩
  rw [hE] at hg
  cases r with
  | error e =>
    exact nonMut_append (nonMut_log _) hg
  | ok res =>
    simp only [h, Bool.not_false, if_pos]
    exact nonMut_append
      (nonMut_append (nonMut_append (nonMut_log _) hg)
        (nonMut_cons rfl (nonMut_print_resource_info res)))
      (nonMut_log _)

/-- C4: every instance record in a successful discovery result has a state other
than stopped or terminated. -/
theorem c4_no_stopped_records (st : AWSState) (iid pip : List String) (v : Option String)
    (res : Resources) (tr : List Event)
    (hd : get_instances_details st iid pip v = (Except.ok res, tr)) :
    ∀ r ∈ res.instances, r.state ≠ "stopped" ∧ r.state ≠ "terminated" := by
  intro r hr
  have h1 : (get_instances_details st iid pip v).1 = Except.ok res := by
    rw [hd]
  rcases gid_ok_instances st iid pip v res h1 with h2 | h2
  · rw [h2] at hr
    cases hr
  · rw [h2] at hr
    exact processInstances_no_stopped st _ none r hr

/-- A small concrete provider state used to witness the theorems: one running
instance in a VPC, with a gateway, subnet, endpoint, ASG membership and an IAM
profile association, and no EKS cluster. -/
def stW : AWSState :=
  { instances :=
      [{ instanceId := "i-9", publicIp := some "9.9.9.9", state := "running",
         launchTime := "2024-05-01 12:00:00", vpcId := some "vpc-9",
         networkInterfaceIds := ["eni-9"], securityGroupIds := ["sg-9"],
         iamInstanceProfileArn := some "arn:aws:iam::1:instance-profile/p9",
         blockDeviceMappings := [("/dev/xvda", "vol-9")] }],
    internetGateways := [{ igwId := "igw-9", attachedVpcIds := ["vpc-9"] }],
    subnets := [{ subnetId := "sub-9", vpcId := "vpc-9" }],
    vpcEndpoints := [{ endpointId := "vpce-9", vpcId := "vpc-9" }],
    asgInstances := [{ instanceId := "i-9", asgName := some "asg-9" }],
    iamAssociations := [{ associationId := "assoc-9",
                          arn := "arn:aws:iam::1:instance-profile/p9" }],
    eksClusters := [], nodegroups := [] }

/-- Dry-run CLI arguments for the witness state. -/
def argsW : Args :=
  { public_ip := [], instance_id := ["i-9"], vpc_id := none, no_dry_run := false }

/-- The resource set discovery produces on `stW` for `--instance-id i-9`. -/
def resW : Resources :=
  { eksCluster := none, vpcId := none,
    instances :=
      [{ instanceId := "i-9", publicIp := "9.9.9.9", state := "running",
         launchTime := "2024-05-01 12:00:00", vpcId := some "vpc-9",
         internetGatewayIds := ["igw-9"], subnetIds := ["sub-9"],
         networkInterfaceId := "eni-9", securityGroupIds := ["sg-9"],
         iamInstanceProfile := "arn:aws:iam::1:instance-profile/p9",
         blockDeviceMappings := [("/dev/xvda", "vol-9")],
         autoScalingGroup := "asg-9" }],
    internetGatewayIds := none, subnetIds := none }

/-- The event trace discovery produces on `stW` for `--instance-id i-9`. -/
def trW : List Event :=
  [Event.call (Call.describeInstances ["i-9"] []),
   Event.call (Call.describeAsgInstances "i-9"),
   Event.call (Call.describeInternetGateways "vpc-9"),
   Event.call (Call.describeSubnets "vpc-9"),
   Event.call Call.listClusters]

/-- Witness for C3 at a concrete dry-run invocation. -/
theorem c3_dry_run_no_mutating_calls_witness :
    argsW.no_dry_run = false ∧ ∀ e ∈ (mainProgram stW argsW).2, mutatingE e = false :=
  ⟨rfl, c3_dry_run_no_mutating_calls stW argsW rfl⟩

/-- Witness for C4 at a concrete discovery call. -/
theorem c4_no_stopped_records_witness :
    get_instances_details stW ["i-9"] [] none = (Except.ok resW, trW) ∧
    ∀ r ∈ resW.instances, r.state ≠ "stopped" ∧ r.state ≠ "terminated" :=
  ⟨rfl, c4_no_stopped_records stW ["i-9"] [] none resW trW rfl⟩

/-- C8: each destructive step, invoked on the `"N/A"` absent/invalid sentinel,
short-circuits with exactly one log line and no provider call; because each step
is a pure function of its target (and the static provider state), running it
twice in sequence repeats the identical no-op, raising no error — stated here
as the doubled traces containing no provider call at all. -/
theorem c8_sentinel_steps_are_noops (st : AWSState) :
    terminate_asg "N/A" = [Event.log "No Auto Scaling Group attached."] ∧
    detach_iam_instance_profile st "N/A" = [Event.log "No IAM instance profile attached."] ∧
    terminate_instance "N/A" = [Event.log "Invalid instance ID."] ∧
    delete_subnet "N/A" = [Event.log "Invalid subnet ID."] ∧
    delete_internet_gateways st "N/A" = [Event.log "Invalid VPC ID."] ∧
    delete_vpc st "N/A" = [Event.log "Invalid VPC ID."] ∧
    ((terminate_asg "N/A" ++ terminate_asg "N/A" ++
      detach_iam_instance_profile st "N/A" ++ detach_iam_instance_profile st "N/A" ++
      terminate_instance "N/A" ++ terminate_instance "N/A" ++
      delete_subnet "N/A" ++ delete_subnet "N/A" ++
      delete_internet_gateways st "N/A" ++ delete_internet_gateways st "N/A" ++
      delete_vpc st "N/A" ++ delete_vpc st "N/A").all
        (fun e => !isProviderCall e)) = true := by
  refine ⟨rfl, rfl, rfl, rfl, rfl, rfl, rfl⟩

/-- Events that belong to the network-endpoint deletion phase (its describe and
delete calls, plus printed lines). -/
def endpointPhase : Event → Bool
  | .log _ => true
  | .call (.describeVpcEndpoints _) => true
  | .call (.deleteVpcEndpoint _) => true
  | _ => false

/-- Events that belong to the internet-gateway detach-and-delete phase. -/
def gatewayPhase : Event → Bool
  | .log _ => true
  | .call (.describeInternetGateways _) => true
  | .call (.detachInternetGateway _ _) => true
  | .call (.deleteInternetGateway _) => true
  | _ => false

/-- Events that belong to the subnet deletion phase. -/
def subnetPhase : Event → Bool
  | .log _ => true
  | .call (.describeSubnets _) => true
  | .call (.deleteSubnet _) => true
  | _ => false

lemma endpointPhase_delete_vpc_endpoints (st : AWSState) (v : String) :
    ∀ x ∈ delete_vpc_endpoints st v, endpointPhase x = true := by
  intro x hx
  unfold delete_vpc_endpoints at hx
  split at hx
  · simp only [List.mem_singleton] at hx
    exact hx ▸ rfl
  · rcases List.mem_cons.mp hx with h | h
    · exact h ▸ rfl
    · rcases List.mem_flatMap.mp h with ⟨e, _, he⟩
      simp only [List.mem_cons, List.not_mem_nil, or_false] at he
      rcases he with h1 | h1 <;> exact h1 ▸ rfl

lemma gatewayPhase_delete_internet_gateways (st : AWSState) (v : String) :
    ∀ x ∈ delete_internet_gateways st v, gatewayPhase x = true := by
  intro x hx
  unfold delete_internet_gateways at hx
  split at hx
  · simp only [List.mem_singleton] at hx
    exact hx ▸ rfl
  · rcases List.mem_cons.mp hx with h | h
    · exact h ▸ rfl
    · rcases List.mem_flatMap.mp h with ⟨g, _, hg⟩
      simp only [List.mem_cons, List.not_mem_nil, or_false] at hg
      rcases hg with h1 | h1 | h1 <;> exact h1 ▸ rfl

lemma subnetPhase_delete_all_subnets (st : AWSState) (v : String) :
    ∀ x ∈ delete_all_subnets st v, subnetPhase x = true := by
  intro x hx
  unfold delete_all_subnets at hx
  split at hx
  · simp only [List.mem_singleton] at hx
    exact hx ▸ rfl
  · rcases List.mem_cons.mp hx with h | h
    · exact h ▸ rfl
    · rcases List.mem_flatMap.mp h with ⟨s, _, hs⟩
      unfold delete_subnet at hs
      split at hs
      · simp only [List.mem_singleton] at hs
        exact hs ▸ rfl
      · simp only [List.mem_cons, List.not_mem_nil, or_false] at hs
        rcases hs with h1 | h1 <;> exact h1 ▸ rfl

/-- C6: when a network is actually torn down (identifier not the absent
sentinel), `delete_vpc` runs exactly four phases in strict order: all endpoint
deletions, then all gateway detach-and-deletes, then all subnet deletions, and
only then the deletion of the network itself. -/
theorem c6_network_teardown_order (st : AWSState) (v : String) (h : v ≠ "N/A") :
    ∃ e g s,
      delete_vpc st v =
        e ++ g ++ s ++
        [Event.log ("Deleting VPC " ++ v ++ "..."), Event.call (Call.deleteVpc v)] ∧
      (∀ x ∈ e, endpointPhase x = true) ∧
      (∀ x ∈ g, gatewayPhase x = true) ∧
      (∀ x ∈ s, subnetPhase x = true) := by
  refine ⟨delete_vpc_endpoints st v, delete_internet_gateways st v, delete_all_subnets st v,
    ?_, endpointPhase_delete_vpc_endpoints st v, gatewayPhase_delete_internet_gateways st v,
    subnetPhase_delete_all_subnets st v⟩
  unfold delete_vpc
  rw [if_neg h]

/-- Witness for C6 at a concrete state and VPC id. -/
theorem c6_network_teardown_order_witness :
    ("vpc-9" ≠ "N/A") ∧
    ∃ e g s,
      delete_vpc stW "vpc-9" =
        e ++ g ++ s ++
        [Event.log ("Deleting VPC " ++ "vpc-9" ++ "..."),
         Event.call (Call.deleteVpc "vpc-9")] ∧
      (∀ x ∈ e, endpointPhase x = true) ∧
      (∀ x ∈ g, gatewayPhase x = true) ∧
      (∀ x ∈ s, subnetPhase x = true) :=
  ⟨by decide, c6_network_teardown_order stW "vpc-9" (by decide)⟩

/-- Provider state exhibiting the discovery filter slip: instance `i-1` runs
inside `vpc-1`, instance `i-2` runs outside any VPC. -/
def stC1 : AWSState :=
  { instances :=
      [{ instanceId := "i-1", publicIp := some "1.1.1.1", state := "running",
         launchTime := "2024-01-01 00:00:00", vpcId := some "vpc-1",
         networkInterfaceIds := [], securityGroupIds := [],
         iamInstanceProfileArn := none, blockDeviceMappings := [] },
       { instanceId := "i-2", publicIp := none, state := "running",
         launchTime := "2024-01-01 00:00:00", vpcId := none,
         networkInterfaceIds := [], securityGroupIds := [],
         iamInstanceProfileArn := none, blockDeviceMappings := [] }],
    internetGateways := [], subnets := [], vpcEndpoints := [],
    asgInstances := [], iamAssociations := [], eksClusters := [], nodegroups := [] }

/-- C1 evaluation: the identifiers resolved from the supplied network are not
unioned into the instance query filter.  `vpc-1` has the attached running
instance `i-1`; with the explicit instance filter `[i-2]` the query result is
exactly `[i-2]` (the network-resolved `i-1` is dropped rather than unioned);
with no explicit filter at all the query runs with an empty filter and returns
every instance in the region, including `i-2`, which is not attached to the
network. -/
theorem c1_vpc_ids_not_unioned :
    (describeInstancesOfVpc stC1 "vpc-1").map (fun i => i.instanceId) = ["i-1"] ∧
    ((get_instances_details stC1 ["i-2"] [] (some "vpc-1")).1.toOption.map
        (fun r => r.instances.map (fun d => d.instanceId))) = some ["i-2"] ∧
    ((get_instances_details stC1 [] [] (some "vpc-1")).1.toOption.map
        (fun r => r.instances.map (fun d => d.instanceId))) = some ["i-1", "i-2"] :=
  ⟨rfl, rfl, rfl⟩

/-- Provider state for the C9 counterexample: `vpc-5` contains exactly one
instance, which is stopped, and owns a gateway and a subnet. -/
def stC9 : AWSState :=
  { instances :=
      [{ instanceId := "i-5s", publicIp := none, state := "stopped",
         launchTime := "2024-01-01 00:00:00", vpcId := some "vpc-5",
         networkInterfaceIds := [], securityGroupIds := [],
         iamInstanceProfileArn := none, blockDeviceMappings := [] }],
    internetGateways := [{ igwId := "igw-5", attachedVpcIds := ["vpc-5"] }],
    subnets := [{ subnetId := "sub-5", vpcId := "vpc-5" }],
    vpcEndpoints := [], asgInstances := [], iamAssociations := [],
    eksClusters := [], nodegroups := [] }

/-- C9 counterexample: discovery by network id `vpc-5` leaves zero instances
after the stopped/terminated filtering (the only attached instance is stopped),
yet the result is not a network-only ResourceSet: the gateway and subnet id
lists are absent even though the network owns `igw-5` and `sub-5`.  The
network-only branch keys on zero instances being attached before filtering, not
zero remaining after it. -/
theorem c9_counterexample_stopped_vpc :
    (describeInstancesOfVpc stC9 "vpc-5").map (fun i => i.state) = ["stopped"] ∧
    igwIdsOfVpc stC9 "vpc-5" = ["igw-5"] ∧
    subnetIdsOfVpc stC9 "vpc-5" = ["sub-5"] ∧
    (get_instances_details stC9 [] [] (some "vpc-5")).1 =
      Except.ok { eksCluster := none, vpcId := some "vpc-5", instances := [],
                  internetGatewayIds := none, subnetIds := none } :=
  ⟨rfl, rfl, rfl, rfl⟩

/-- C9 as amended: when zero instances are attached to the queried network at
query time (before any state filtering), discovery returns the network-only
ResourceSet: the network's gateway ids, subnet ids, and the managed-cluster
association, and no instance records. -/
theorem c9_network_only_shape (st : AWSState) (iid pip : List String) (v : String)
    (hv : v ≠ "") (h : describeInstancesOfVpc st v = []) :
    get_instances_details st iid pip (some v) =
      (Except.ok { eksCluster := (get_eks_cluster st (some v)).1, vpcId := some v,
                   instances := [], internetGatewayIds := some (igwIdsOfVpc st v),
                   subnetIds := some (subnetIdsOfVpc st v) },
       [Event.call (Call.describeInstancesVpc v),
        Event.log ("No instances found for VPC " ++ v),
        Event.call (Call.describeInternetGateways v),
        Event.call (Call.describeSubnets v)] ++ (get_eks_cluster st (some v)).2) := by
  unfold get_instances_details
  dsimp only
  rw [if_neg hv, h]
  rfl

/-- Provider state for the C9 witness: `vpc-6` has no instances at all, a
gateway, a subnet, and an associated EKS cluster. -/
def stC9b : AWSState :=
  { instances := [],
    internetGateways := [{ igwId := "igw-6", attachedVpcIds := ["vpc-6"] }],
    subnets := [{ subnetId := "sub-6", vpcId := "vpc-6" }],
    vpcEndpoints := [], asgInstances := [], iamAssociations := [],
    eksClusters := [{ name := "c6", vpcId := "vpc-6" }],
    nodegroups := [("c6", ["ng-6"])] }

/-- Witness for the amended C9 at a concrete instance-free network. -/
theorem c9_network_only_shape_witness :
    ("vpc-6" ≠ "") ∧ describeInstancesOfVpc stC9b "vpc-6" = [] ∧
    get_instances_details stC9b [] [] (some "vpc-6") =
      (Except.ok { eksCluster := (get_eks_cluster stC9b (some "vpc-6")).1,
                   vpcId := some "vpc-6", instances := [],
                   internetGatewayIds := some (igwIdsOfVpc stC9b "vpc-6"),
                   subnetIds := some (subnetIdsOfVpc stC9b "vpc-6") },
       [Event.call (Call.describeInstancesVpc "vpc-6"),
        Event.log ("No instances found for VPC " ++ "vpc-6"),
        Event.call (Call.describeInternetGateways "vpc-6"),
        Event.call (Call.describeSubnets "vpc-6")] ++
       (get_eks_cluster stC9b (some "vpc-6")).2) :=
  ⟨by decide, rfl, c9_network_only_shape stC9b [] [] "vpc-6" (by decide) rfl⟩

/-- Event `x` occurs at some position strictly before an occurrence of event
`y` in the trace `l`. -/
def OrderedIn (x y : Event) (l : List Event) : Prop :=
  ∃ i j : Nat, i < j ∧ l[i]? = some x ∧ l[j]? = some y

lemma orderedIn_append_left (x y : Event) (a b : List Event) (h : OrderedIn x y a) :
    OrderedIn x y (a ++ b) := by
  obtain ⟨i, j, hij, hx, hy⟩ := h
  have hi : i < a.length := (List.getElem?_eq_some.mp hx).1
  have hj : j < a.length := (List.getElem?_eq_some.mp hy).1
  refine ⟨i, j, hij, ?_, ?_⟩
  · rw [List.getElem?_append_left hi]
    exact hx
  · rw [List.getElem?_append_left hj]
    exact hy

lemma orderedIn_append_right (x y : Event) (a b : List Event) (h : OrderedIn x y b) :
    OrderedIn x y (a ++ b) := by
  obtain ⟨i, j, hij, hx, hy⟩ := h
  refine ⟨a.length + i, a.length + j, by omega, ?_, ?_⟩
  · rw [List.getElem?_append_right (by omega)]
    simpa using hx
  · rw [List.getElem?_append_right (by omega)]
    simpa using hy

lemma orderedIn_of_mem_mem (x y : Event) (a b : List Event) (hx : x ∈ a) (hy : y ∈ b) :
    OrderedIn x y (a ++ b) := by
  obtain ⟨i, hi⟩ := List.get_of_mem hx
  obtain ⟨j, hj⟩ := List.get_of_mem hy
  refine ⟨i.val, a.length + j.val, by omega, ?_, ?_⟩
  · rw [List.getElem?_append_left i.isLt, List.getElem?_eq_getElem i.isLt]
    simpa using congrArg some hi
  · rw [List.getElem?_append_right (by omega)]
    have hcut : a.length + j.val - a.length = j.val := by omega
    rw [hcut, List.getElem?_eq_getElem j.isLt]
    simpa using congrArg some hj

lemma instanceLoop_asg_before_terminate (st : AWSState) (l : List InstanceData) :
    ∀ v d, d ∈ l → d.autoScalingGroup ≠ "N/A" → d.instanceId ≠ "N/A" →
      OrderedIn (Event.call (Call.deleteAutoScalingGroup d.autoScalingGroup))
                (Event.call (Call.terminateInstances d.instanceId))
                (instanceLoop st v l).2 := by
  induction l with
  | nil =>
    intro v d hd
    cases hd
  | cons e rest ih =>
    intro v d hd hasg hid
    simp only [instanceLoop]
    rcases List.mem_cons.mp hd with h1 | h1
    · subst h1
      refine orderedIn_append_left _ _ _ _ (orderedIn_of_mem_mem _ _ _ _ ?_ ?_)
      · refine List.mem_append_left _ ?_
        unfold terminate_asg
        rw [if_neg hasg]
        simp
      · unfold terminate_instance
        rw [if_neg hid]
        simp
    · exact orderedIn_append_right _ _ _ _ (ih _ d h1 hasg hid)

/-- C5: in every non-dry-run execution, for every discovered instance record
with a non-absent auto-scaling-group name (and a non-sentinel instance id, so a
termination call exists for the record), the deletion call for that group
occurs strictly before the termination call for that record's instance. -/
theorem c5_asg_deleted_before_instance (st : AWSState) (args : Args) (res : Resources)
    (t1 : List Event) (r : InstanceData)
    (hdry : args.no_dry_run = true)
    (hd : get_instances_details st args.instance_id args.public_ip args.vpc_id =
      (Except.ok res, t1))
    (hmem : r ∈ res.instances)
    (hasg : r.autoScalingGroup ≠ "N/A")
    (hid : r.instanceId ≠ "N/A") :
    OrderedIn (Event.call (Call.deleteAutoScalingGroup r.autoScalingGroup))
              (Event.call (Call.terminateInstances r.instanceId))
              (mainProgram st args).2 := by
  have hloop := instanceLoop_asg_before_terminate st res.instances args.vpc_id r hmem hasg hid
  have hteardown :
      OrderedIn (Event.call (Call.deleteAutoScalingGroup r.autoScalingGroup))
                (Event.call (Call.terminateInstances r.instanceId))
                (teardownEvents st args.vpc_id res) := by
    unfold teardownEvents
    exact orderedIn_append_left _ _ _ _ hloop
  unfold mainProgram
  rw [hd]
  dsimp only
  rw [if_neg (by simp [hdry])]
  split
  · exact orderedIn_append_right _ _ _ _ hteardown
  · exact orderedIn_append_right _ _ _ _ hteardown

/-- Execute-mode CLI arguments for the witness state. -/
def argsWX : Args :=
  { public_ip := [], instance_id := ["i-9"], vpc_id := none, no_dry_run := true }

/-- The single instance record discovery produces on `stW`. -/
def rW : InstanceData :=
  { instanceId := "i-9", publicIp := "9.9.9.9", state := "running",
    launchTime := "2024-05-01 12:00:00", vpcId := some "vpc-9",
    internetGatewayIds := ["igw-9"], subnetIds := ["sub-9"],
    networkInterfaceId := "eni-9", securityGroupIds := ["sg-9"],
    iamInstanceProfile := "arn:aws:iam::1:instance-profile/p9",
    blockDeviceMappings := [("/dev/xvda", "vol-9")],
    autoScalingGroup := "asg-9" }

/-- Witness for C5 at a concrete execute-mode run. -/
theorem c5_asg_deleted_before_instance_witness :
    argsWX.no_dry_run = true ∧
    get_instances_details stW argsWX.instance_id argsWX.public_ip argsWX.vpc_id =
      (Except.ok resW, trW) ∧
    rW ∈ resW.instances ∧ rW.autoScalingGroup ≠ "N/A" ∧ rW.instanceId ≠ "N/A" ∧
    OrderedIn (Event.call (Call.deleteAutoScalingGroup rW.autoScalingGroup))
              (Event.call (Call.terminateInstances rW.instanceId))
              (mainProgram stW argsWX).2 :=
  ⟨rfl, rfl, List.mem_singleton.mpr rfl, by decide, by decide,
   c5_asg_deleted_before_instance stW argsWX resW trW rW rfl rfl
     (List.mem_singleton.mpr rfl) (by decide) (by decide)⟩

/-- Whether an event is the deletion call for a network (VPC). -/
def isDeleteVpcE : Event → Bool
  | .call (.deleteVpc _) => true
  | _ => false

/-- A trace containing no network-deletion call. -/
def NoDV (l : List Event) : Prop := ∀ e ∈ l, isDeleteVpcE e = false

lemma isDeleteVpcE_mutating (e : Event) (h : isDeleteVpcE e = true) : mutatingE e = true := by
  cases e with
  | log s => simp [isDeleteVpcE] at h
  | call c => cases c <;> simp_all [isDeleteVpcE, mutatingE, mutatingCall]

lemma noDV_of_nonMut {l : List Event} (h : NonMut l) : NoDV l := by
  intro e he
  have hm := h e he
  cases hb : isDeleteVpcE e
  · rfl
  · rw [isDeleteVpcE_mutating e hb] at hm
    exact Bool.noConfusion hm

lemma filter_eq_nil_of_noDV {l : List Event} (h : NoDV l) : l.filter isDeleteVpcE = [] :=
  List.filter_eq_nil_iff.mpr (fun e he => by rw [h e he]; exact Bool.false_ne_true)

lemma noDV_append {a b : List Event} (ha : NoDV a) (hb : NoDV b) : NoDV (a ++ b) := by
  intro e he
  rcases List.mem_append.mp he with h | h
  · exact ha e h
  · exact hb e h

lemma noDV_log (s : String) : NoDV [Event.log s] := by
  intro e he
  simp only [List.mem_singleton] at he
  exact he ▸ rfl

lemma noDV_terminate_asg (n : String) : NoDV (terminate_asg n) := by
  intro e he
  unfold terminate_asg at he
  split at he
  · simp only [List.mem_singleton] at he
    exact he ▸ rfl
  · simp only [List.mem_cons, List.not_mem_nil, or_false] at he
    rcases he with h | h <;> exact h ▸ rfl

lemma noDV_detach_iam (st : AWSState) (arn : String) :
    NoDV (detach_iam_instance_profile st arn) := by
  intro e he
  unfold detach_iam_instance_profile at he
  split at he
  · simp only [List.mem_singleton] at he
    exact he ▸ rfl
  · rcases List.mem_append.mp he with h | h
    · simp only [List.mem_cons, List.not_mem_nil, or_false] at h
      rcases h with h1 | h1 <;> exact h1 ▸ rfl
    · rcases List.mem_map.mp h with ⟨a, _, ha⟩
      exact ha ▸ rfl

lemma noDV_terminate_instance (iid : String) : NoDV (terminate_instance iid) := by
  intro e he
  unfold terminate_instance at he
  split at he
  · simp only [List.mem_singleton] at he
    exact he ▸ rfl
  · simp only [List.mem_cons, List.not_mem_nil, or_false] at he
    rcases he with h | h | h <;> exact h ▸ rfl

lemma noDV_instanceLoop (st : AWSState) (l : List InstanceData) :
    ∀ v, NoDV (instanceLoop st v l).2 := by
  induction l with
  | nil =>
    intro v e he
    cases he
  | cons d rest ih =>
    intro v
    simp only [instanceLoop]
    exact noDV_append
      (noDV_append (noDV_append (noDV_terminate_asg _) (noDV_detach_iam st _))
        (noDV_terminate_instance _))
      (ih _)

lemma noDV_delete_eks_cluster (st : AWSState) (n : Option String) :
    NoDV (delete_eks_cluster st n) := by
  intro e he
  unfold delete_eks_cluster at he
  cases n with
  | none => cases he
  | some c =>
    dsimp only at he
    split at he
    · cases he
    · rcases List.mem_append.mp he with h | h
      · rcases List.mem_append.mp h with h2 | h2
        · rcases List.mem_append.mp h2 with h3 | h3
          · simp only [List.mem_cons, List.not_mem_nil, or_false] at h3
            rcases h3 with h4 | h4 <;> exact h4 ▸ rfl
          · rcases List.mem_flatMap.mp h3 with ⟨ng, _, hng⟩
            simp only [List.mem_cons, List.not_mem_nil, or_false] at hng
            rcases hng with h4 | h4 <;> exact h4 ▸ rfl
        · rcases List.mem_map.mp h2 with ⟨ng, _, hng⟩
          exact hng ▸ rfl
      · simp only [List.mem_cons, List.not_mem_nil, or_false] at h
        rcases h with h4 | h4 <;> exact h4 ▸ rfl

lemma noDV_delete_vpc_endpoints (st : AWSState) (v : String) :
    NoDV (delete_vpc_endpoints st v) := by
  intro e he
  have := endpointPhase_delete_vpc_endpoints st v e he
  cases e with
  | log s => rfl
  | call c => cases c <;> simp_all [endpointPhase, isDeleteVpcE]

lemma noDV_delete_internet_gateways (st : AWSState) (v : String) :
    NoDV (delete_internet_gateways st v) := by
  intro e he
  have := gatewayPhase_delete_internet_gateways st v e he
  cases e with
  | log s => rfl
  | call c => cases c <;> simp_all [gatewayPhase, isDeleteVpcE]

lemma noDV_delete_all_subnets (st : AWSState) (v : String) :
    NoDV (delete_all_subnets st v) := by
  intro e he
  have := subnetPhase_delete_all_subnets st v e he
  cases e with
  | log s => rfl
  | call c => cases c <;> simp_all [subnetPhase, isDeleteVpcE]

lemma filter_DV_delete_vpc (st : AWSState) (v : String) (h : v ≠ "N/A") :
    (delete_vpc st v).filter isDeleteVpcE = [Event.call (Call.deleteVpc v)] := by
  unfold delete_vpc
  rw [if_neg h, List.filter_append, List.filter_append, List.filter_append,
    filter_eq_nil_of_noDV (noDV_delete_vpc_endpoints st v),
    filter_eq_nil_of_noDV (noDV_delete_internet_gateways st v),
    filter_eq_nil_of_noDV (noDV_delete_all_subnets st v)]
  rfl

/-- The network identifier the teardown loop of `main` ends up targeting: the
CLI-supplied one when present, otherwise the first record VPC id encountered
while the running value is still Python `None`. -/
def chooseVpc : Option String → List InstanceData → Option String
  | v, [] => v
  | v, d :: rest => chooseVpc (if v.isNone then d.vpcId else v) rest

lemma instanceLoop_fst (st : AWSState) (l : List InstanceData) :
    ∀ v, (instanceLoop st v l).1 = chooseVpc v l := by
  induction l with
  | nil => intro v; rfl
  | cons d rest ih =>
    intro v
    simp only [instanceLoop, chooseVpc]
    exact ih _

lemma noDV_cons {e : Event} {l : List Event} (h1 : isDeleteVpcE e = false) (h2 : NoDV l) :
    NoDV (e :: l) := by
  intro x hx
  rcases List.mem_cons.mp hx with h | h
  · exact h ▸ h1
  · exact h2 x h

lemma filter_DV_teardown (st : AWSState) (v0 : Option String) (res : Resources) :
    (teardownEvents st v0 res).filter isDeleteVpcE =
      (match chooseVpc v0 res.instances with
       | some v => if v = "" ∨ v = "N/A" then [] else [Event.call (Call.deleteVpc v)]
       | none => []) := by
  unfold teardownEvents
  dsimp only
  rw [List.filter_append, filter_eq_nil_of_noDV (noDV_instanceLoop st res.instances v0),
    List.nil_append, instanceLoop_fst st res.instances v0]
  cases hc : chooseVpc v0 res.instances with
  | none => rfl
  | some v =>
    dsimp only
    by_cases hv : v = ""
    · rw [if_pos hv, if_pos (Or.inl hv)]
      rfl
    · rw [if_neg hv]
      by_cases hna : v = "N/A"
      · rw [if_pos (Or.inr hna)]
        unfold delete_vpc
        rw [if_pos hna]
        rfl
      · rw [if_neg (by tauto), filter_DV_delete_vpc st v hna]

/-- C10: in every non-dry-run execution, the teardown deletes at most one
network, and its identifier is the CLI-supplied one when given, otherwise the
first non-null VPC id among the instance records in list order (`chooseVpc`);
the filtered trace contains exactly that one deletion call (or none when no
target exists or it is falsy/sentinel). -/
theorem c10_at_most_one_network (st : AWSState) (args : Args) (res : Resources)
    (t1 : List Event)
    (hdry : args.no_dry_run = true)
    (hd : get_instances_details st args.instance_id args.public_ip args.vpc_id =
      (Except.ok res, t1)) :
    (mainProgram st args).2.filter isDeleteVpcE =
      (match chooseVpc args.vpc_id res.instances with
       | some v => if v = "" ∨ v = "N/A" then [] else [Event.call (Call.deleteVpc v)]
       | none => []) := by
  have ht1 : NoDV t1 := by
    have hnm :=
      noDV_of_nonMut (nonMut_get_instances_details st args.instance_id args.public_ip args.vpc_id)
    rw [hd] at hnm
    exact hnm
  have hprint : NoDV (print_resource_info res) :=
    noDV_of_nonMut (nonMut_print_resource_info res)
  unfold mainProgram
  rw [hd]
  dsimp only
  rw [if_neg (by simp [hdry])]
  split
  · have hbig :
        NoDV ([Event.log "retrieving details..."] ++ t1 ++
          (Event.log "These resources will be deleted:" :: print_resource_info res) ++
          delete_eks_cluster st res.eksCluster ++
          [Event.log "Updating the resources after removing the EKS cluster"] ++ t1 ++
          (Event.log "Resources left for deletion:" :: print_resource_info res)) :=
      noDV_append
        (noDV_append
          (noDV_append
            (noDV_append
              (noDV_append (noDV_append (noDV_log _) ht1) (noDV_cons rfl hprint))
              (noDV_delete_eks_cluster st res.eksCluster))
            (noDV_log _))
          ht1)
        (noDV_cons rfl hprint)
    rw [List.filter_append, filter_eq_nil_of_noDV hbig, List.nil_append]
    exact filter_DV_teardown st args.vpc_id res
  · have hbig :
        NoDV ([Event.log "retrieving details..."] ++ t1 ++
          (Event.log "These resources will be deleted:" :: print_resource_info res)) :=
      noDV_append (noDV_append (noDV_log _) ht1) (noDV_cons rfl hprint)
    rw [List.filter_append, filter_eq_nil_of_noDV hbig, List.nil_append]
    exact filter_DV_teardown st args.vpc_id res

/-- Witness for C10 at a concrete execute-mode run: exactly one network
deletion, targeting the record-derived VPC id. -/
theorem c10_at_most_one_network_witness :
    argsWX.no_dry_run = true ∧
    get_instances_details stW argsWX.instance_id argsWX.public_ip argsWX.vpc_id =
      (Except.ok resW, trW) ∧
    (mainProgram stW argsWX).2.filter isDeleteVpcE =
      (match chooseVpc argsWX.vpc_id resW.instances with
       | some v => if v = "" ∨ v = "N/A" then [] else [Event.call (Call.deleteVpc v)]
       | none => []) :=
  ⟨rfl, rfl, c10_at_most_one_network stW argsWX resW trW rfl rfl⟩

/-- C7: in a non-dry-run execution whose discovered ResourceSet carries a
managed cluster, the trace decomposes as: a mutation-free prefix, then the
deletion call for every node group of the cluster, then the wait for each node
group to reach the deleted state, then the cluster deletion call, then the
re-discovery call (the discovery trace replayed), then mutation-free report
printing, and only then the instance-level teardown phase. -/
theorem c7_eks_cluster_removed_first (st : AWSState) (args : Args) (res : Resources)
    (t1 : List Event) (c : String)
    (hdry : args.no_dry_run = true)
    (hd : get_instances_details st args.instance_id args.public_ip args.vpc_id =
      (Except.ok res, t1))
    (hres : res.eksCluster = some c)
    (hc : c ≠ "") :
    ∃ pre mid,
      (mainProgram st args).2 =
        pre ++
        (nodegroupsOf st c).flatMap (fun ng =>
          [Event.call (Call.deleteNodegroup c ng),
           Event.log ("Deleted node group " ++ ng)]) ++
        (nodegroupsOf st c).map (fun ng => Event.call (Call.waitNodegroupDeleted c ng)) ++
        [Event.log ("Deleting EKS cluster " ++ c ++ "..."),
         Event.call (Call.deleteCluster c)] ++
        (Event.log "Updating the resources after removing the EKS cluster" :: t1) ++
        mid ++
        teardownEvents st args.vpc_id res ∧
      (∀ e ∈ pre, mutatingE e = false) ∧
      (∀ e ∈ mid, mutatingE e = false) := by
  have ht1 : NonMut t1 := by
    have hnm := nonMut_get_instances_details st args.instance_id args.public_ip args.vpc_id
    rw [hd] at hnm
    exact hnm
  refine ⟨[Event.log "retrieving details..."] ++ t1 ++
    (Event.log "These resources will be deleted:" :: print_resource_info res) ++
    [Event.log ("Deleting node groups for EKS cluster " ++ c ++ "..."),
     Event.call (Call.listNodegroups c)],
    Event.log "Resources left for deletion:" :: print_resource_info res, ?_, ?_, ?_⟩
  · unfold mainProgram
    rw [hd]
    dsimp only
    rw [if_neg (by simp [hdry]), hres, if_pos (by simp [truthyOpt, hc])]
    unfold delete_eks_cluster
    dsimp only
    rw [if_neg hc]
    simp only [List.append_assoc, List.cons_append, List.nil_append]
  · refine nonMut_append (nonMut_append (nonMut_append (nonMut_log _) ht1)
      (nonMut_cons rfl (nonMut_print_resource_info res))) ?_
    intro e he
    simp only [List.mem_cons, List.not_mem_nil, or_false] at he
    rcases he with h | h <;> exact h ▸ rfl
  · exact nonMut_cons rfl (nonMut_print_resource_info res)

/-- Execute-mode CLI arguments for the EKS-bearing witness state `stC9b`. -/
def argsC7 : Args :=
  { public_ip := [], instance_id := [], vpc_id := some "vpc-6", no_dry_run := true }

/-- The resource set discovery produces on `stC9b` for `--vpc-id vpc-6`. -/
def resC7 : Resources :=
  { eksCluster := some "c6", vpcId := some "vpc-6", instances := [],
    internetGatewayIds := some ["igw-6"], subnetIds := some ["sub-6"] }

/-- The event trace discovery produces on `stC9b` for `--vpc-id vpc-6`. -/
def trC7 : List Event :=
  [Event.call (Call.describeInstancesVpc "vpc-6"),
   Event.log "No instances found for VPC vpc-6",
   Event.call (Call.describeInternetGateways "vpc-6"),
   Event.call (Call.describeSubnets "vpc-6"),
   Event.call Call.listClusters,
   Event.call (Call.describeCluster "c6")]

/-- Witness for C7 at a concrete execute-mode run with a managed cluster. -/
theorem c7_eks_cluster_removed_first_witness :
    argsC7.no_dry_run = true ∧
    get_instances_details stC9b argsC7.instance_id argsC7.public_ip argsC7.vpc_id =
      (Except.ok resC7, trC7) ∧
    resC7.eksCluster = some "c6" ∧ ("c6" ≠ "") ∧
    (∃ pre mid,
      (mainProgram stC9b argsC7).2 =
        pre ++
        (nodegroupsOf stC9b "c6").flatMap (fun ng =>
          [Event.call (Call.deleteNodegroup "c6" ng),
           Event.log ("Deleted node group " ++ ng)]) ++
        (nodegroupsOf stC9b "c6").map
          (fun ng => Event.call (Call.waitNodegroupDeleted "c6" ng)) ++
        [Event.log ("Deleting EKS cluster " ++ "c6" ++ "..."),
         Event.call (Call.deleteCluster "c6")] ++
        (Event.log "Updating the resources after removing the EKS cluster" :: trC7) ++
        mid ++
        teardownEvents stC9b argsC7.vpc_id resC7 ∧
      (∀ e ∈ pre, mutatingE e = false) ∧
      (∀ e ∈ mid, mutatingE e = false)) :=
  ⟨rfl, rfl, rfl, by decide,
   c7_eks_cluster_removed_first stC9b argsC7 resC7 trC7 "c6" rfl rfl rfl (by decide)⟩
